import Mathlib

/-!
Shallow embedding of `src/rqt_pr2_dashboard/pr2_dashboard.py` (class
`PR2Dashboard`): the status-mapping callback `dashboard_callback` and the two
button handlers `on_reset_motors` / `on_halt_motors`, together with the panel
state they read and write.

Pure data flows become Lean functions over an explicit `PanelState`; GUI and
middleware side effects (dialogs, service calls) are reified as an `Effect`
trace; the user's dialog answer and the remote call's outcome are passed in as
parameters. Python 2's initializer-less `reduce` is modelled by the partial
`reduce1`, returning `none` on the empty list (the uncaught `TypeError`).
-/

namespace PR2

/-- Circuit-state value `PowerBoardState.STATE_ON` that `on_reset_motors`
compares the `circuit_state` entries against. Modelled from the spec: the
entries range over the enum OFF / STANDBY / ON encoded as small integers (the
`pr2_msgs/PowerBoardState` message definition is external to this repository);
only equality with the ON value is ever tested. -/
def STATE_ON : Nat := 3

/-- The fields of `pr2_msgs/PowerBoardState` read by the dashboard. -/
structure PowerBoardStateMsg where
  run_stop : Bool
  wireless_stop : Bool
  circuit_state : List Nat
deriving DecidableEq

/-- The fields of `pr2_msgs/DashboardState` read by the dashboard.
`motors_halted` stands for the Python `msg.motors_halted.data` Bool, and
`power_state` is the opaque payload forwarded unchanged to the battery
widget's `set_power_state`. -/
structure DashboardStateMsg where
  motors_halted_valid : Bool
  motors_halted : Bool
  power_state_valid : Bool
  power_state : Nat
  power_board_state_valid : Bool
  power_board_state : PowerBoardStateMsg
deriving DecidableEq

/-- Display state of the motors widget (`set_ok` / `set_error` / `set_stale`). -/
inductive MotorIndicator
  | unset
  | ok
  | error
  | stale
deriving DecidableEq

/-- The motors widget: display state plus `setToolTip` text. -/
structure MotorsWidget where
  state : MotorIndicator
  tooltip : String
deriving DecidableEq

/-- Display state of the battery widget (`self._batteries[0]`): either stale
or showing a forwarded `power_state` payload. -/
inductive BatteryIndicator
  | unset
  | stale
  | powerState (ps : Nat)
deriving DecidableEq

/-- Display state of the runstop widget (`PR2Runstops`), one constructor per
setter invoked by the callback (`set_ok`, `set_physical_engaged`,
`set_wireless_engaged`, `set_stale`). -/
inductive RunstopIndicator
  | unset
  | ok
  | physicalEngaged
  | wirelessEngaged
  | stale
deriving DecidableEq

/-- The runstop widget: display state plus `setToolTip` text. -/
structure RunstopWidget where
  state : RunstopIndicator
  tooltip : String
deriving DecidableEq

/-- Display state of one breaker widget (`PR2BreakerButton`). Modelled from
the spec: `reset()` returns the widget to its default/disabled state,
`set_power_board_state_msg` hands it the full power-board state for its own
per-index interpretation, and `set_enable()` is a visual-only enable request
on the indicator (it does not itself call a remote service). -/
inductive BreakerDisplay
  | disabled
  | boardState (b : PowerBoardStateMsg)
  | enableRequested
deriving DecidableEq

/-- The mutable panel state touched by the callback and the handlers:
`_dashboard_message`, `_last_dashboard_message_time` (the receipt time,
abstracted to a Nat token) and the widgets. -/
structure PanelState where
  dashboard_message : Option DashboardStateMsg
  last_dashboard_message_time : Nat
  motors : MotorsWidget
  battery : BatteryIndicator
  breakers : List BreakerDisplay
  runstop : RunstopWidget
deriving DecidableEq

/-- Panel state right after `setup`: no message yet, widgets unset, three
breaker widgets (Left Arm, Base, Right Arm). -/
def initialPanel : PanelState :=
  { dashboard_message := none
  , last_dashboard_message_time := 0
  , motors := ⟨.unset, ""⟩
  , battery := .unset
  , breakers := [.disabled, .disabled, .disabled]
  , runstop := ⟨.unset, ""⟩ }

/-- `PR2Dashboard.dashboard_callback`, the Status Mapper: records the message
and receipt time, then updates the motors, battery, breaker and runstop
widgets field by field, mirroring the Python statement by statement (in
particular the runstop branch sequence: `if run_stop ... elif wireless_stop
...` followed by the separate `if not wireless_stop ...`). -/
def dashboard_callback (msg : DashboardStateMsg) (now : Nat) (s : PanelState) :
    PanelState :=
  let s := { s with dashboard_message := some msg
                  , last_dashboard_message_time := now }
  let s :=
    if msg.motors_halted_valid then
      if !msg.motors_halted then
        { s with motors := ⟨.ok, "Motors: Running"⟩ }
      else
        { s with motors := ⟨.error, "Motors: Halted"⟩ }
    else
      { s with motors := ⟨.stale, "Motors: Stale"⟩ }
  let s :=
    if msg.power_state_valid then
      { s with battery := .powerState msg.power_state }
    else
      { s with battery := .stale }
  if msg.power_board_state_valid then
    let s :=
      { s with breakers := s.breakers.map (fun _ => .boardState msg.power_board_state) }
    let s :=
      if msg.power_board_state.run_stop then
        { s with runstop :=
          ⟨.ok, "Physical Runstop: OK\nWireless Runstop: OK"⟩ }
      else if msg.power_board_state.wireless_stop then
        { s with runstop :=
          ⟨.physicalEngaged, "Physical Runstop: Pressed\nWireless Runstop: OK"⟩ }
      else
        s
    if !msg.power_board_state.wireless_stop then
      { s with runstop :=
        ⟨.wirelessEngaged, "Physical Runstop: Unknown\nWireless Runstop: Pressed"⟩ }
    else
      s
  else
    { s with breakers := s.breakers.map (fun _ => .disabled)
           , runstop :=
             ⟨.stale, "Physical Runstop: Stale\nWireless Runstop: Stale"⟩ }

/-- Observable GUI / middleware side effects of the button handlers, in
order of occurrence. A `serviceCall` is a no-argument remote invocation of
the named endpoint. -/
inductive Effect
  | questionDialog (title text : String) (defaultYes : Bool)
  | serviceCall (name : String)
  | errorDialog (title text : String)
deriving DecidableEq

def Effect.isServiceCall : Effect → Bool
  | .serviceCall _ => true
  | _ => false

def Effect.isErrorDialog : Effect → Bool
  | .errorDialog _ _ => true
  | _ => false

def Effect.isQuestionDialog : Effect → Bool
  | .questionDialog _ _ _ => true
  | _ => false

def serviceCallsOf (effs : List Effect) : List Effect :=
  effs.filter Effect.isServiceCall

def errorDialogsOf (effs : List Effect) : List Effect :=
  effs.filter Effect.isErrorDialog

def questionDialogsOf (effs : List Effect) : List Effect :=
  effs.filter Effect.isQuestionDialog

/-- Python 2 `reduce(f, l)` with no initial element: a `TypeError` on the
empty list (here `none`), otherwise a left fold of `f` seeded with the head. -/
def reduce1 (f : α → α → α) : List α → Option α
  | [] => none
  | x :: xs => some (xs.foldl f x)

/-- The `QMessageBox.question` shown by `on_reset_motors`, with its exact
title, text, and default button (`QMessageBox.Yes`, recorded as the
`defaultYes := true` field). -/
def enableBreakersQuestion : Effect :=
  .questionDialog "Enable Breakers?"
    "Resetting the motors may not work because not all breakers are enabled.  Enable all the breakers first?"
    true

/-- The confirmation phase of `PR2Dashboard.on_reset_motors` (the lines up
to and including the breaker-enable requests): if a last-received message
exists and its power board is valid, fold conjunction (Python 2 `reduce`
without an initializer) over `circuit_state == STATE_ON`; on `none` the
`TypeError` propagates (`none` overall); when not all breakers are ON, show
the question dialog and, on a Yes `answer`, request enable on every breaker
widget. Returns the updated panel state plus the dialog effects so far. -/
def reset_motors_precheck (answer : Bool) (s : PanelState) :
    Option (PanelState × List Effect) :=
  match s.dashboard_message with
  | some m =>
      if m.power_board_state_valid then
        match reduce1 (fun x y => x && y)
            (m.power_board_state.circuit_state.map (fun st => st == STATE_ON)) with
        | none => none
        | some allOn =>
            if !allOn then
              if answer then
                some ({ s with breakers :=
                          s.breakers.map (fun _ => .enableRequested) },
                      [enableBreakersQuestion])
              else
                some (s, [enableBreakersQuestion])
            else
              some (s, [])
      else
        some (s, [])
  | none => some (s, [])

/-- `PR2Dashboard.on_reset_motors`. `answer` is the user's reply to the
confirmation dialog when it is shown (`true` = Yes); `outcome` is the remote
call's result (`none` = success, `some e` = `rospy.ServiceException` with
text `e`). Returns `none` when the Python raises an uncaught exception (the
initializer-less `reduce` over an empty `circuit_state`); otherwise the
updated panel state and the ordered effect trace: the precheck's dialog,
then the no-argument service call, then — only on failure — the one caught
error dialog. -/
def on_reset_motors (ns : String) (answer : Bool) (outcome : Option String)
    (s : PanelState) : Option (PanelState × List Effect) :=
  (reset_motors_precheck answer s).map (fun r =>
    (r.1, r.2 ++ Effect.serviceCall (ns ++ "/reset_motors") ::
      (match outcome with
       | none => []
       | some e =>
           [Effect.errorDialog "Error"
             ("Failed to reset the motors: service call failed with error: " ++ e)])))

/-- `PR2Dashboard.on_halt_motors`: invoke the remote halt endpoint; on
`rospy.ServiceException` show one critical error dialog. The panel state is
returned alongside the effect trace. -/
def on_halt_motors (ns : String) (outcome : Option String) (s : PanelState) :
    PanelState × List Effect :=
  (s, Effect.serviceCall (ns ++ "/halt_motors") ::
    (match outcome with
     | none => []
     | some e =>
         [Effect.errorDialog "Error"
           ("Failed to halt the motors: service call failed with error: " ++ e)]))

/-- Default of the `--motor-namespace` option registered by
`PR2Dashboard.add_arguments`. -/
def motorNamespaceDefault : String := "pr2_ethercat"

def motorNamespaceFlag : String := "--motor-namespace"

/-- Modelled from the spec: the hosting framework's argument parsing in
`setup` for the single registered string option `--motor-namespace` with
default `pr2_ethercat` (the argparse library is external). Only the
space-separated `--motor-namespace VALUE` form is modelled; any other token,
or a trailing flag without a value, is a parse error (`none`). -/
def parseMotorNamespaceFrom (acc : String) : List String → Option String
  | [] => some acc
  | [_] => none
  | a :: b :: rest =>
      if a == motorNamespaceFlag then parseMotorNamespaceFrom b rest else none

/-- The `_motor_namespace` value obtained from the panel's argument list. -/
def parseMotorNamespace (argv : List String) : Option String :=
  parseMotorNamespaceFrom motorNamespaceDefault argv

/-- Spec-side description: every `circuit_state` entry equals ON. -/
def allBreakersOn (m : DashboardStateMsg) : Bool :=
  m.power_board_state.circuit_state.all (fun st => st == STATE_ON)

/-- Spec-side description of when `on_reset_motors` shows the confirmation
dialog: a last-received status exists, its power-board section is valid, and
not every breaker circuit state equals ON. -/
def needsPrompt (s : PanelState) : Bool :=
  match s.dashboard_message with
  | none => false
  | some m => m.power_board_state_valid && !(allBreakersOn m)

/-- Spec-side table of the runstop widget after a message with a valid power
board section, indexed by `(run_stop, wireless_stop)`: the sequential
overwrite rule of spec section 4.1. -/
def runstopExpected : Bool → Bool → RunstopWidget
  | true, true =>
      ⟨.ok, "Physical Runstop: OK\nWireless Runstop: OK"⟩
  | true, false =>
      ⟨.wirelessEngaged, "Physical Runstop: Unknown\nWireless Runstop: Pressed"⟩
  | false, true =>
      ⟨.physicalEngaged, "Physical Runstop: Pressed\nWireless Runstop: OK"⟩
  | false, false =>
      ⟨.wirelessEngaged, "Physical Runstop: Unknown\nWireless Runstop: Pressed"⟩

/-- Spec-side table of the motors widget after a message, indexed by
`(motors_halted_valid, motors_halted)`. -/
def motorsExpected : Bool → Bool → MotorsWidget
  | false, _ => ⟨.stale, "Motors: Stale"⟩
  | true, true => ⟨.error, "Motors: Halted"⟩
  | true, false => ⟨.ok, "Motors: Running"⟩

/-- The observable indicator and tooltip state of every widget (excludes the
stored message and receipt time). -/
def widgetView (s : PanelState) :
    MotorsWidget × BatteryIndicator × List BreakerDisplay × RunstopWidget :=
  (s.motors, s.battery, s.breakers, s.runstop)

/-- Spec section 3 invariant on the panel state: whenever the stored message
has a valid power-board section, its `circuit_state` is non-empty (the spec
fixes its length at 3, one entry per breaker widget). -/
def circuitNonempty (s : PanelState) : Prop :=
  ∀ m, s.dashboard_message = some m → m.power_board_state_valid = true →
    m.power_board_state.circuit_state ≠ []

end PR2

namespace PR2

/-- C1: for every message with a valid power board section, the final runstop
widget state and tooltip follow the sequential-overwrite table over
`(run_stop, wireless_stop)`: (true,true) is Ok with the OK/OK tooltip,
(true,false) ends wireless-engaged with the Unknown/Pressed tooltip (the Ok
set first is overwritten), (false,true) is physical-engaged with the
Pressed/OK tooltip, (false,false) is wireless-engaged with the
Unknown/Pressed tooltip — not the exclusive if/elif/elif mapping. -/
theorem runstop_sequential_overwrite (msg : DashboardStateMsg) (now : Nat)
    (s : PanelState) (h : msg.power_board_state_valid = true) :
    (dashboard_callback msg now s).runstop =
      runstopExpected msg.power_board_state.run_stop
        msg.power_board_state.wireless_stop := by
  rcases msg with ⟨mhv, mh, psv, ps, pbv, ⟨rs, ws, cs⟩⟩
  cases mhv <;> cases mh <;> cases psv <;> cases rs <;> cases ws <;>
    simp_all [dashboard_callback, runstopExpected]

/-- Witness for C1 at a concrete input: `run_stop = true`,
`wireless_stop = false` on a fresh panel ends wireless-engaged. -/
theorem runstop_sequential_overwrite_witness :
    (DashboardStateMsg.mk true false true 0 true
        (PowerBoardStateMsg.mk true false [3, 3, 3])).power_board_state_valid
      = true ∧
    (dashboard_callback
        (DashboardStateMsg.mk true false true 0 true
          (PowerBoardStateMsg.mk true false [3, 3, 3])) 5 initialPanel).runstop
      = runstopExpected true false :=
  ⟨rfl, runstop_sequential_overwrite _ 5 initialPanel rfl⟩

/-- C4: for every message, the motors widget follows the mapping: valid flag
false gives Stale with tooltip "Motors: Stale"; valid and halted gives Error
with "Motors: Halted"; valid and not halted gives Ok with "Motors: Running". -/
theorem motors_mapping (msg : DashboardStateMsg) (now : Nat) (s : PanelState) :
    (dashboard_callback msg now s).motors =
      motorsExpected msg.motors_halted_valid msg.motors_halted := by
  rcases msg with ⟨mhv, mh, psv, ps, pbv, ⟨rs, ws, cs⟩⟩
  cases mhv <;> cases mh <;> cases psv <;> cases pbv <;> cases rs <;> cases ws <;>
    simp [dashboard_callback, motorsExpected]

/-- C7: for every message, the battery widget receives the forwarded
`power_state` payload when `power_state_valid` is true and is set Stale
otherwise. -/
theorem battery_mapping (msg : DashboardStateMsg) (now : Nat) (s : PanelState) :
    (dashboard_callback msg now s).battery =
      (if msg.power_state_valid then BatteryIndicator.powerState msg.power_state
       else BatteryIndicator.stale) := by
  rcases msg with ⟨mhv, mh, psv, ps, pbv, ⟨rs, ws, cs⟩⟩
  cases mhv <;> cases mh <;> cases psv <;> cases pbv <;> cases rs <;> cases ws <;>
    simp [dashboard_callback]

/-- C5: for every message with `power_board_state_valid = false`, every
breaker widget is reset to its default/disabled state, the runstop widget is
Stale with the tooltip marking both runstops stale, and no breaker receives
the power-board state. -/
theorem powerboard_invalid_resets (msg : DashboardStateMsg) (now : Nat)
    (s : PanelState) (h : msg.power_board_state_valid = false) :
    (dashboard_callback msg now s).breakers =
        s.breakers.map (fun _ => BreakerDisplay.disabled) ∧
    (dashboard_callback msg now s).runstop =
        ⟨.stale, "Physical Runstop: Stale\nWireless Runstop: Stale"⟩ ∧
    ∀ b ∈ (dashboard_callback msg now s).breakers, ∀ pb,
      b ≠ BreakerDisplay.boardState pb := by
  rcases msg with ⟨mhv, mh, psv, ps, pbv, ⟨rs, ws, cs⟩⟩
  cases mhv <;> cases mh <;> cases psv <;>
    simp_all [dashboard_callback]

/-- Witness for C5 at a concrete input: an all-invalid message on a fresh
panel resets the breakers and stales the runstop. -/
theorem powerboard_invalid_resets_witness :
    (DashboardStateMsg.mk false false false 0 false
        (PowerBoardStateMsg.mk false false [])).power_board_state_valid
      = false ∧
    ((dashboard_callback
        (DashboardStateMsg.mk false false false 0 false
          (PowerBoardStateMsg.mk false false [])) 7 initialPanel).breakers =
      initialPanel.breakers.map (fun _ => BreakerDisplay.disabled) ∧
     (dashboard_callback
        (DashboardStateMsg.mk false false false 0 false
          (PowerBoardStateMsg.mk false false [])) 7 initialPanel).runstop =
      ⟨.stale, "Physical Runstop: Stale\nWireless Runstop: Stale"⟩ ∧
     ∀ b ∈ (dashboard_callback
        (DashboardStateMsg.mk false false false 0 false
          (PowerBoardStateMsg.mk false false [])) 7 initialPanel).breakers, ∀ pb,
       b ≠ BreakerDisplay.boardState pb) :=
  ⟨rfl, powerboard_invalid_resets _ 7 initialPanel rfl⟩

/-- C6: the callback is idempotent on the observable widget state: delivering
the identical message twice in a row leaves every widget's indicator and
tooltip exactly as after the first delivery. -/
theorem callback_idempotent (msg : DashboardStateMsg) (t1 t2 : Nat)
    (s : PanelState) :
    widgetView (dashboard_callback msg t2 (dashboard_callback msg t1 s)) =
      widgetView (dashboard_callback msg t1 s) := by
  rcases msg with ⟨mhv, mh, psv, ps, pbv, ⟨rs, ws, cs⟩⟩
  cases mhv <;> cases mh <;> cases psv <;> cases pbv <;> cases rs <;> cases ws <;>
    simp [dashboard_callback, widgetView, List.map_map, Function.comp]

end PR2

namespace PR2

/-- A left fold of boolean conjunction equals the seed conjoined with `all`. -/
theorem foldl_and_eq_all (b : Bool) (l : List Bool) :
    l.foldl (fun x y => x && y) b = (b && l.all (fun y => y)) := by
  induction l generalizing b with
  | nil => simp
  | cons c cs ih => simp [ih, Bool.and_assoc]

/-- `all` of the identity over a mapped list is `all` of the function. -/
theorem all_id_map (f : α → Bool) (xs : List α) :
    (xs.map f).all (fun y => y) = xs.all f := by
  induction xs with
  | nil => rfl
  | cons c cs ih => simp [ih]

/-- `reduce1` of boolean conjunction over a mapped non-empty list computes
`List.all`. -/
theorem reduce1_and_map (f : α → Bool) (x : α) (xs : List α) :
    reduce1 (fun a b => a && b) ((x :: xs).map f) = some ((x :: xs).all f) := by
  simp [reduce1, foldl_and_eq_all, all_id_map]

/-- Branch equation: the confirmation phase when no message was received. -/
theorem precheck_none (answer : Bool) (s : PanelState)
    (hmsg : s.dashboard_message = none) :
    reset_motors_precheck answer s = some (s, []) := by
  unfold reset_motors_precheck
  rw [hmsg]

/-- Branch equation: the confirmation phase when a message was received. -/
theorem precheck_some (answer : Bool) (s : PanelState) (m : DashboardStateMsg)
    (hmsg : s.dashboard_message = some m) :
    reset_motors_precheck answer s =
      (if m.power_board_state_valid then
        match reduce1 (fun x y => x && y)
            (m.power_board_state.circuit_state.map (fun st => st == STATE_ON)) with
        | none => none
        | some allOn =>
            if !allOn then
              if answer then
                some ({ s with breakers :=
                          s.breakers.map (fun _ => BreakerDisplay.enableRequested) },
                      [enableBreakersQuestion])
              else
                some (s, [enableBreakersQuestion])
            else
              some (s, [])
       else some (s, [])) := by
  unfold reset_motors_precheck
  rw [hmsg]

/-- Branch equation: `needsPrompt` when no message was received. -/
theorem needsPrompt_none (s : PanelState) (hmsg : s.dashboard_message = none) :
    needsPrompt s = false := by
  unfold needsPrompt
  rw [hmsg]

/-- Branch equation: `needsPrompt` when a message was received. -/
theorem needsPrompt_some (s : PanelState) (m : DashboardStateMsg)
    (hmsg : s.dashboard_message = some m) :
    needsPrompt s = (m.power_board_state_valid && !(allBreakersOn m)) := by
  unfold needsPrompt
  rw [hmsg]

/-- Under the non-empty `circuit_state` invariant, the confirmation phase of
`on_reset_motors` never raises, shows the question dialog exactly when
`needsPrompt` holds, and requests enable on every breaker exactly when the
dialog was shown and answered Yes. -/
theorem precheck_eq (answer : Bool) (s : PanelState) (hwf : circuitNonempty s) :
    reset_motors_precheck answer s =
      some ((if needsPrompt s && answer then
               { s with breakers :=
                   s.breakers.map (fun _ => BreakerDisplay.enableRequested) }
             else s),
            (if needsPrompt s then [enableBreakersQuestion] else [])) := by
  rcases hmsg : s.dashboard_message with _ | m
  · rw [precheck_none answer s hmsg, needsPrompt_none s hmsg]
    simp
  · rw [precheck_some answer s m hmsg, needsPrompt_some s m hmsg]
    cases hv : m.power_board_state_valid
    · simp
    · obtain ⟨c, cs, hcs⟩ := List.exists_cons_of_ne_nil (hwf m hmsg hv)
      rw [hcs, reduce1_and_map]
      have hall : (c :: cs).all (fun st => st == STATE_ON) = allBreakersOn m := by
        rw [allBreakersOn, hcs]
      rw [hall]
      cases hA : allBreakersOn m <;> cases answer <;> simp [hmsg]

/-- Whatever the panel state, a non-raising confirmation phase returns one of
exactly three results: no dialog and the state untouched, the dialog and the
state untouched, or the dialog and every breaker set to enable-requested. -/
theorem precheck_cases (answer : Bool) (s : PanelState)
    (p : PanelState × List Effect)
    (h : reset_motors_precheck answer s = some p) :
    p = (s, []) ∨ p = (s, [enableBreakersQuestion]) ∨
      p = ({ s with breakers :=
               s.breakers.map (fun _ => BreakerDisplay.enableRequested) },
           [enableBreakersQuestion]) := by
  rcases hmsg : s.dashboard_message with _ | m
  · rw [precheck_none answer s hmsg] at h
    injection h with h
    left
    exact h.symm
  · rw [precheck_some answer s m hmsg] at h
    cases hv : m.power_board_state_valid <;> rw [hv] at h
    · simp only [Bool.false_eq_true, if_false] at h
      injection h with h
      left
      exact h.symm
    · simp only [if_true] at h
      rcases hred : reduce1 (fun x y => x && y)
          (m.power_board_state.circuit_state.map (fun st => st == STATE_ON))
        with _ | allOn <;> rw [hred] at h
      · simp at h
      · cases allOn <;> cases answer <;> simp_all

end PR2

namespace PR2

/-- A message whose power board is valid and whose middle breaker (Base) is
not ON. -/
def msgNotAllOn : DashboardStateMsg :=
  ⟨true, false, true, 0, true, ⟨true, true, [3, 1, 3]⟩⟩

/-- A panel that has stored `msgNotAllOn` as its last-received message. -/
def panelNotAllOn : PanelState :=
  { initialPanel with dashboard_message := some msgNotAllOn }

/-- A message whose power board is valid but reports no breakers at all. -/
def msgEmptyCircuit : DashboardStateMsg :=
  ⟨true, false, true, 0, true, ⟨true, true, []⟩⟩

/-- A panel that has stored `msgEmptyCircuit` as its last-received message. -/
def panelEmptyCircuit : PanelState :=
  { initialPanel with dashboard_message := some msgEmptyCircuit }

/-- The non-empty circuit invariant holds at `panelNotAllOn`. -/
theorem panelNotAllOn_wf : circuitNonempty panelNotAllOn := by
  intro m hm hv
  have h : some msgNotAllOn = some m := hm
  injection h with h
  subst h
  simp [msgNotAllOn]

end PR2

namespace PR2

/-- C2 as stated is too strong: at a concrete panel whose valid power-board
message reports an empty circuit list, the initializer-less fold raises
(`none`), so the remote reset command is never invoked — "in every case"
fails. -/
theorem reset_motors_empty_circuit_no_call :
    on_reset_motors "pr2_ethercat" true (some "err") panelEmptyCircuit = none :=
  rfl

/-- C2 (amended to panels satisfying the spec's non-empty `circuit_state`
invariant): `on_reset_motors` shows the enable-breakers question (default
answer Yes) exactly when a last-received status exists, its power board is
valid, and not every circuit entry is ON; on a Yes answer every breaker
widget receives the visual-only enable request, otherwise the panel state is
untouched; and in every such case the no-argument remote reset command is
invoked after the prompt. -/
theorem reset_motors_spec (ns : String) (answer : Bool) (outcome : Option String)
    (s : PanelState) (hwf : circuitNonempty s) :
    ∃ s1 effs, on_reset_motors ns answer outcome s = some (s1, effs) ∧
      questionDialogsOf effs =
        (if needsPrompt s then [enableBreakersQuestion] else []) ∧
      (needsPrompt s = true → answer = true →
        s1.breakers = s.breakers.map (fun _ => BreakerDisplay.enableRequested)) ∧
      (¬(needsPrompt s = true ∧ answer = true) → s1 = s) ∧
      (∃ tail, effs =
        (if needsPrompt s then [enableBreakersQuestion] else []) ++
          Effect.serviceCall (ns ++ "/reset_motors") :: tail) := by
  unfold on_reset_motors
  rw [precheck_eq answer s hwf]
  cases hq : needsPrompt s <;> cases answer <;> rcases outcome with _ | e <;>
    simp only [Option.map_some'] <;>
    refine ⟨_, _, rfl, ?_, ?_, ?_, ⟨_, rfl⟩⟩ <;>
    simp [questionDialogsOf, enableBreakersQuestion, Effect.isQuestionDialog]

/-- Witness for (amended) C2 at a concrete input: on `panelNotAllOn` (Base
breaker not ON) with answer Yes and a successful call. -/
theorem reset_motors_spec_witness :
    circuitNonempty panelNotAllOn ∧
    (∃ s1 effs,
      on_reset_motors "pr2_ethercat" true none panelNotAllOn = some (s1, effs) ∧
      questionDialogsOf effs =
        (if needsPrompt panelNotAllOn then [enableBreakersQuestion] else []) ∧
      (needsPrompt panelNotAllOn = true → true = true →
        s1.breakers =
          panelNotAllOn.breakers.map (fun _ => BreakerDisplay.enableRequested)) ∧
      (¬(needsPrompt panelNotAllOn = true ∧ true = true) → s1 = panelNotAllOn) ∧
      (∃ tail, effs =
        (if needsPrompt panelNotAllOn then [enableBreakersQuestion] else []) ++
          Effect.serviceCall ("pr2_ethercat" ++ "/reset_motors") :: tail)) :=
  ⟨panelNotAllOn_wf,
    reset_motors_spec "pr2_ethercat" true none panelNotAllOn panelNotAllOn_wf⟩

/-- C9: with a stored message whose power board is valid, the all-breakers
check is the initializer-less conjunction fold over `circuit_state == ON`:
on an empty `circuit_state` the whole handler fails (no dialog, no remote
call); on a non-empty one the fold computes exactly the conjunction of
`entry == ON` over all entries. -/
theorem reset_motors_fold (ns : String) (answer : Bool) (outcome : Option String)
    (s : PanelState) (m : DashboardStateMsg)
    (hm : s.dashboard_message = some m) (hv : m.power_board_state_valid = true) :
    (m.power_board_state.circuit_state = [] →
      on_reset_motors ns answer outcome s = none) ∧
    (∀ x xs, m.power_board_state.circuit_state = x :: xs →
      reduce1 (fun a b => a && b)
          (m.power_board_state.circuit_state.map (fun st => st == STATE_ON)) =
        some (allBreakersOn m)) := by
  constructor
  · intro hcs
    unfold on_reset_motors
    rw [precheck_some answer s m hm, hv, hcs]
    rfl
  · intro x xs hcs
    rw [hcs, reduce1_and_map]
    have hall : (x :: xs).all (fun st => st == STATE_ON) = allBreakersOn m := by
      rw [allBreakersOn, hcs]
    rw [hall]

/-- Witness for C9 at a concrete input: the empty-circuit panel makes the
handler fail with no effects. -/
theorem reset_motors_fold_witness :
    panelEmptyCircuit.dashboard_message = some msgEmptyCircuit ∧
    msgEmptyCircuit.power_board_state_valid = true ∧
    on_reset_motors "pr2_ethercat" false none panelEmptyCircuit = none :=
  ⟨rfl, rfl,
    (reset_motors_fold "pr2_ethercat" false none panelEmptyCircuit msgEmptyCircuit
        rfl rfl).1 rfl⟩

end PR2

namespace PR2

/-- C3 as stated is too strong: a concrete failing invocation of
`on_reset_motors` (Base breaker not ON, dialog answered Yes, remote call
raising "boom") shows the error dialog but leaves the breaker widgets
changed — they received the enable request before the call. -/
theorem reset_failure_changes_breakers :
    on_reset_motors "pr2_ethercat" true (some "boom") panelNotAllOn =
      some ({ panelNotAllOn with breakers :=
                [.enableRequested, .enableRequested, .enableRequested] },
            [enableBreakersQuestion,
              Effect.serviceCall ("pr2_ethercat" ++ "/reset_motors"),
              Effect.errorDialog "Error"
                ("Failed to reset the motors: service call failed with error: " ++ "boom")]) ∧
    [BreakerDisplay.enableRequested, .enableRequested, .enableRequested] ≠
      panelNotAllOn.breakers := by
  refine ⟨rfl, ?_⟩
  decide

/-- C3 (amended): on every completed invocation with a failing remote call,
exactly one error dialog is shown, naming the failed action and the error
text; the call is made exactly once (no retry); the failure is not
propagated (the handler returns); and the stored message, timestamp and all
widgets are unchanged — except that in `on_reset_motors` the breaker widgets
may already hold the enable request issued by the accepted confirmation
prompt before the call. -/
theorem remote_failure_handling (ns e : String) (answer : Bool)
    (s s1 : PanelState) (effs : List Effect)
    (hr : on_reset_motors ns answer (some e) s = some (s1, effs)) :
    (errorDialogsOf effs =
        [Effect.errorDialog "Error"
          ("Failed to reset the motors: service call failed with error: " ++ e)] ∧
      serviceCallsOf effs = [Effect.serviceCall (ns ++ "/reset_motors")] ∧
      s1.dashboard_message = s.dashboard_message ∧
      s1.last_dashboard_message_time = s.last_dashboard_message_time ∧
      s1.motors = s.motors ∧ s1.battery = s.battery ∧ s1.runstop = s.runstop ∧
      (s1.breakers = s.breakers ∨
        s1.breakers = s.breakers.map (fun _ => BreakerDisplay.enableRequested))) ∧
    ((on_halt_motors ns (some e) s).1 = s ∧
      errorDialogsOf (on_halt_motors ns (some e) s).2 =
        [Effect.errorDialog "Error"
          ("Failed to halt the motors: service call failed with error: " ++ e)] ∧
      serviceCallsOf (on_halt_motors ns (some e) s).2 =
        [Effect.serviceCall (ns ++ "/halt_motors")]) := by
  unfold on_reset_motors at hr
  rcases hp : reset_motors_precheck answer s with _ | p
  · rw [hp] at hr
    simp at hr
  · rw [hp] at hr
    simp only [Option.map_some'] at hr
    injection hr with hr
    injection hr with h1 h2
    subst h1
    subst h2
    rcases precheck_cases answer s p hp with h | h | h <;> subst h <;>
      refine ⟨⟨?_, ?_, ?_, ?_, ?_, ?_, ?_, ?_⟩, rfl, ?_, ?_⟩ <;>
      simp [errorDialogsOf, serviceCallsOf, on_halt_motors,
        Effect.isErrorDialog, Effect.isServiceCall, enableBreakersQuestion]

/-- Witness for (amended) C3 at a concrete input: a failing reset on
`panelNotAllOn` with the prompt declined, and the matching failing halt. -/
theorem remote_failure_handling_witness :
    (errorDialogsOf [enableBreakersQuestion,
        Effect.serviceCall ("pr2_ethercat" ++ "/reset_motors"),
        Effect.errorDialog "Error"
          ("Failed to reset the motors: service call failed with error: " ++ "oops")] =
        [Effect.errorDialog "Error"
          ("Failed to reset the motors: service call failed with error: " ++ "oops")] ∧
      serviceCallsOf [enableBreakersQuestion,
        Effect.serviceCall ("pr2_ethercat" ++ "/reset_motors"),
        Effect.errorDialog "Error"
          ("Failed to reset the motors: service call failed with error: " ++ "oops")] =
        [Effect.serviceCall ("pr2_ethercat" ++ "/reset_motors")] ∧
      panelNotAllOn.dashboard_message = panelNotAllOn.dashboard_message ∧
      panelNotAllOn.last_dashboard_message_time =
        panelNotAllOn.last_dashboard_message_time ∧
      panelNotAllOn.motors = panelNotAllOn.motors ∧
      panelNotAllOn.battery = panelNotAllOn.battery ∧
      panelNotAllOn.runstop = panelNotAllOn.runstop ∧
      (panelNotAllOn.breakers = panelNotAllOn.breakers ∨
        panelNotAllOn.breakers =
          panelNotAllOn.breakers.map (fun _ => BreakerDisplay.enableRequested))) ∧
    ((on_halt_motors "pr2_ethercat" (some "oops") panelNotAllOn).1 = panelNotAllOn ∧
      errorDialogsOf (on_halt_motors "pr2_ethercat" (some "oops") panelNotAllOn).2 =
        [Effect.errorDialog "Error"
          ("Failed to halt the motors: service call failed with error: " ++ "oops")] ∧
      serviceCallsOf (on_halt_motors "pr2_ethercat" (some "oops") panelNotAllOn).2 =
        [Effect.serviceCall ("pr2_ethercat" ++ "/halt_motors")]) :=
  remote_failure_handling "pr2_ethercat" "oops" false panelNotAllOn panelNotAllOn
    [enableBreakersQuestion,
      Effect.serviceCall ("pr2_ethercat" ++ "/reset_motors"),
      Effect.errorDialog "Error"
        ("Failed to reset the motors: service call failed with error: " ++ "oops")]
    rfl

end PR2

namespace PR2

/-- C8: every remote command is addressed by the configured motor namespace
concatenated with the fixed suffix (`/reset_motors` resp. `/halt_motors`),
and the namespace is the single string option of the panel's argument list,
defaulting to `pr2_ethercat`. -/
theorem endpoint_addressing (ns : String) (answer : Bool) (outcome : Option String)
    (s s1 : PanelState) (effs : List Effect)
    (h : on_reset_motors ns answer outcome s = some (s1, effs)) :
    parseMotorNamespace [] = some "pr2_ethercat" ∧
    (∀ v, parseMotorNamespace [motorNamespaceFlag, v] = some v) ∧
    serviceCallsOf effs = [Effect.serviceCall (ns ++ "/reset_motors")] ∧
    serviceCallsOf (on_halt_motors ns outcome s).2 =
      [Effect.serviceCall (ns ++ "/halt_motors")] := by
  refine ⟨rfl, fun v => rfl, ?_, ?_⟩
  · unfold on_reset_motors at h
    rcases hp : reset_motors_precheck answer s with _ | p
    · rw [hp] at h
      simp at h
    · rw [hp] at h
      simp only [Option.map_some'] at h
      injection h with h
      injection h with h1 h2
      subst h2
      rcases precheck_cases answer s p hp with hc | hc | hc <;> subst hc <;>
        rcases outcome with _ | e <;>
        simp [serviceCallsOf, Effect.isServiceCall, enableBreakersQuestion]
  · rcases outcome with _ | e <;>
      simp [on_halt_motors, serviceCallsOf, Effect.isServiceCall]

/-- Witness for C8 at a concrete input: a fresh panel, successful call. -/
theorem endpoint_addressing_witness :
    parseMotorNamespace [] = some "pr2_ethercat" ∧
    (∀ v, parseMotorNamespace [motorNamespaceFlag, v] = some v) ∧
    serviceCallsOf [Effect.serviceCall ("pr2_ethercat" ++ "/reset_motors")] =
      [Effect.serviceCall ("pr2_ethercat" ++ "/reset_motors")] ∧
    serviceCallsOf (on_halt_motors "pr2_ethercat" none initialPanel).2 =
      [Effect.serviceCall ("pr2_ethercat" ++ "/halt_motors")] :=
  endpoint_addressing "pr2_ethercat" true none initialPanel initialPanel
    [Effect.serviceCall ("pr2_ethercat" ++ "/reset_motors")] rfl

/-- C10: `on_halt_motors` modifies no panel state — the stored message, the
receipt timestamp and every widget are unchanged whether the remote call
succeeds or fails — and its only effects are the one no-argument halt call
followed, on failure only, by the one error dialog. -/
theorem halt_motors_frame (ns : String) (outcome : Option String) (s : PanelState) :
    (on_halt_motors ns outcome s).1.dashboard_message = s.dashboard_message ∧
    (on_halt_motors ns outcome s).1.last_dashboard_message_time =
      s.last_dashboard_message_time ∧
    (on_halt_motors ns outcome s).1.motors = s.motors ∧
    (on_halt_motors ns outcome s).1.battery = s.battery ∧
    (on_halt_motors ns outcome s).1.breakers = s.breakers ∧
    (on_halt_motors ns outcome s).1.runstop = s.runstop ∧
    (on_halt_motors ns outcome s).2 =
      Effect.serviceCall (ns ++ "/halt_motors") ::
        (match outcome with
         | none => []
         | some e =>
             [Effect.errorDialog "Error"
               ("Failed to halt the motors: service call failed with error: " ++ e)]) :=
  ⟨rfl, rfl, rfl, rfl, rfl, rfl, rfl⟩

end PR2
